import Mathlib

/-!
Verification of the connection-abstraction and service-orchestration layer of
an MCP (Model Context Protocol) client console.

The development shallowly embeds the Python source:

* `core/exceptions.py`  → `ExcKind` / `ExcData` (the structured error taxonomy);
* `core/models.py`      → `ServerInfo`, `ToolInfo`, `PromptInfo`, `ResourceInfo`,
  `ConnectionConfig`, `ToolExecutionResult`;
* `core/client.py`      → `MCPClientService` (state record plus `connect`,
  `disconnect`, `execute_tool`, the query methods and the `_parse_*` helpers);
* `connections/factory.py` → `ConnectionFactory.create_connection`;
* `connections/http_connection.py` → `HTTPConnection.call_tool`.

Modelling conventions: Python values passed through opaquely are `JVal`
(a JSON-like value type); a raised exception is the `Except.error` side of an
`Except ExcData` result; `await`ed transport I/O is an oracle
(`TransportBehavior` for the service layer, an explicit response argument for
the HTTP transport); wall-clock floats are abstracted to an integer number
that is only passed through, never computed with.  The logging calls of the
source are ignored (they do not affect state or results), and the
`handle_errors` decorator of `utils/error_handler.py` with `reraise=True` and
no UI callback is behaviour-preserving (log and re-raise), so the decorated
methods are embedded as their bodies.
-/

/-- JSON-like Python values that the client passes through opaquely
(tool arguments, schemas, raw payloads). -/
inductive JVal where
  | null
  | bool (b : Bool)
  | num (n : Int)
  | str (s : String)
  | arr (xs : List JVal)
  | obj (fields : List (String × JVal))

/-- A Python `Dict[str, Any]` (keyword-argument map, tool-argument map). -/
abbrev ArgDict := List (String × JVal)

/-- Wall-clock durations (Python floats from `time.time()` differences) are
modelled as integers; the code only stores and passes them through. -/
abbrev PyFloat := Int

/-- Python `str.lower()` (ASCII case folding, structurally recursive so that
it evaluates on concrete inputs). -/
def pyLower (s : String) : String :=
  String.mk (s.data.map Char.toLower)

/-- Python truthiness (`if not x:`) on `JVal`s: `None`, `False`, `0`, `""`,
`[]` and `{}` are falsy. -/
def pyFalsy : JVal → Bool
  | .null => true
  | .bool b => !b
  | .num n => n == 0
  | .str s => s == ""
  | .arr xs => xs.isEmpty
  | .obj kvs => kvs.isEmpty

/-- `d.get(k)` on a Python dict: the mapped value, or `None` when absent. -/
def pyDictGet (d : ArgDict) (k : String) : JVal :=
  match d.lookup k with
  | some v => v
  | none => JVal.null

/-- `d.get(k, default)` on a Python dict. -/
def pyDictGetD (d : ArgDict) (k : String) (default : JVal) : JVal :=
  match d.lookup k with
  | some v => v
  | none => default

/-- The exception classes of `core/exceptions.py` plus `otherExc` for any
exception that is not an `MCPClientError` subclass (e.g. a library or
runtime error reaching the service layer). -/
inductive ExcKind where
  | mcpClientError
  | connectionError
  | toolExecutionError
  | validationError
  | configurationError
  | otherExc
  deriving DecidableEq

/-- A raised exception: its class (`kind`), its message (`str(e)`), and the
structured context stored by the `core/exceptions.py` constructors (each
constructor also records these fields in the `details` dict). -/
structure ExcData where
  kind : ExcKind
  message : String
  tool_name : Option String
  arguments : Option ArgDict
  execution_context : Option (List (String × PyFloat))
  connection_type : Option String
  connection_params : Option ArgDict

/-- `MCPClientError(message)` — the base taxonomy error. -/
def mkMCPClientError (message : String) : ExcData :=
  ⟨ExcKind.mcpClientError, message, none, none, none, none, none⟩

/-- `ConnectionError(message, connection_type, connection_params)`. -/
def mkConnectionError (message : String) (ct : Option String)
    (cp : Option ArgDict) : ExcData :=
  ⟨ExcKind.connectionError, message, none, none, none, ct, cp⟩

/-- `ToolExecutionError(message, tool_name, arguments, execution_context)`. -/
def mkToolExecutionError (message : String) (tn : Option String)
    (args : Option ArgDict) (ec : Option (List (String × PyFloat))) : ExcData :=
  ⟨ExcKind.toolExecutionError, message, tn, args, ec, none, none⟩

/-- `isinstance(e, MCPClientError)`: every taxonomy class is a subclass of
`MCPClientError`; only foreign exceptions are not. -/
def isMCPClientError (e : ExcData) : Bool :=
  match e.kind with
  | ExcKind.otherExc => false
  | _ => true

/-- The outcome of one Python attribute access on a raw record: present with
a value, absent (`getattr` returns its default), or raising an exception
other than `AttributeError` (which `getattr` does not swallow). -/
inductive AttrResult where
  | val (v : JVal)
  | absent
  | raises

/-- A raw introspection record as handed over by a transport: the attributes
the `_parse_*` helpers read, plus `str(record)` used as name fallback. -/
structure RawRecord where
  name : AttrResult
  description : AttrResult
  inputSchema : AttrResult
  arguments : AttrResult
  uri : AttrResult
  mimeType : AttrResult
  str_repr : String

/-- A raw record that is a bare Python string `s`: it has none of the read
attributes and `str(s) = s`. -/
def RawRecord.ofString (s : String) : RawRecord :=
  ⟨AttrResult.absent, AttrResult.absent, AttrResult.absent,
   AttrResult.absent, AttrResult.absent, AttrResult.absent, s⟩

/-- `getattr(record, attr, default)`: yields the attribute value, the default
when absent, or propagates the exception raised by the access. -/
def pyGetattr (a : AttrResult) (default : JVal) : Except Unit JVal :=
  match a with
  | AttrResult.val v => Except.ok v
  | AttrResult.absent => Except.ok default
  | AttrResult.raises => Except.error ()

/-- `getattr(record, attr, None)` with `None` mapped to `Option.none`. -/
def pyGetattrOpt (a : AttrResult) : Except Unit (Option JVal) :=
  match a with
  | AttrResult.val v => Except.ok (some v)
  | AttrResult.absent => Except.ok none
  | AttrResult.raises => Except.error ()

/-- `models.ConnectionConfig`: transport-kind tag plus parameter map. -/
structure ConnectionConfig where
  connection_type : String
  parameters : ArgDict

/-- The `__post_init__` normalisation: the tag is lowercased on construction. -/
def ConnectionConfig.make (t : String) (p : ArgDict) : ConnectionConfig :=
  ⟨pyLower t, p⟩

/-- The raw dict returned by a transport's `connect()`; the service reads the
keys `name`, `version`, `protocolVersion`, `capabilities` and (with `[]` as
default) `tools`, `prompts`, `resources`. -/
structure ServerData where
  name : Option JVal
  version : Option JVal
  protocolVersion : Option JVal
  capabilities : Option JVal
  tools : List RawRecord
  prompts : List RawRecord
  resources : List RawRecord

/-- `models.ServerInfo`. -/
structure ServerInfo where
  name : Option JVal
  version : Option JVal
  protocol_version : Option JVal
  capabilities : Option JVal
  raw_data : ServerData

/-- `models.ToolInfo` (Python annotates `name`/`description` as `str`, but the
dataclass does not enforce it, so they are modelled as arbitrary values). -/
structure ToolInfo where
  name : JVal
  description : JVal
  input_schema : Option JVal
  raw_data : RawRecord

/-- `models.PromptInfo`. -/
structure PromptInfo where
  name : JVal
  description : JVal
  arguments : Option JVal
  raw_data : RawRecord

/-- `models.ResourceInfo`. -/
structure ResourceInfo where
  uri : JVal
  name : Option JVal
  description : Option JVal
  mime_type : Option JVal
  raw_data : RawRecord

/-- `models.ToolExecutionResult`. -/
structure ToolExecutionResult where
  success : Bool
  result : Option JVal
  error : Option String
  execution_time : Option PyFloat
  raw_result : Option JVal

/-- The body of the loop of `MCPClientService._parse_tools`: build one
`ToolInfo` from a raw record, propagating any exception raised by the
attribute accesses (the `getattr` defaults are `str(record)`, `""` and
`None` respectively, exactly as in the source). -/
def parse_tool_record (d : RawRecord) : Except Unit ToolInfo :=
  match pyGetattr d.name (JVal.str d.str_repr) with
  | Except.error e => Except.error e
  | Except.ok nm =>
    match pyGetattr d.description (JVal.str "") with
    | Except.error e => Except.error e
    | Except.ok ds =>
      match pyGetattrOpt d.inputSchema with
      | Except.error e => Except.error e
      | Except.ok sch => Except.ok ⟨nm, ds, sch, d⟩

/-- `MCPClientService._parse_tools`: each record is parsed inside
`try/except`; a record whose parse raises is dropped (with a logged
warning), the rest of the batch is kept in order. -/
def _parse_tools (tools_data : List RawRecord) : List ToolInfo :=
  tools_data.filterMap (fun d => (parse_tool_record d).toOption)

/-- The loop body of `MCPClientService._parse_prompts`. -/
def parse_prompt_record (d : RawRecord) : Except Unit PromptInfo :=
  match pyGetattr d.name (JVal.str d.str_repr) with
  | Except.error e => Except.error e
  | Except.ok nm =>
    match pyGetattr d.description (JVal.str "") with
    | Except.error e => Except.error e
    | Except.ok ds =>
      match pyGetattrOpt d.arguments with
      | Except.error e => Except.error e
      | Except.ok args => Except.ok ⟨nm, ds, args, d⟩

/-- `MCPClientService._parse_prompts`. -/
def _parse_prompts (prompts_data : List RawRecord) : List PromptInfo :=
  prompts_data.filterMap (fun d => (parse_prompt_record d).toOption)

/-- The loop body of `MCPClientService._parse_resources`. -/
def parse_resource_record (d : RawRecord) : Except Unit ResourceInfo :=
  match pyGetattr d.uri (JVal.str d.str_repr) with
  | Except.error e => Except.error e
  | Except.ok u =>
    match pyGetattrOpt d.name with
    | Except.error e => Except.error e
    | Except.ok nm =>
      match pyGetattrOpt d.description with
      | Except.error e => Except.error e
      | Except.ok ds =>
        match pyGetattrOpt d.mimeType with
        | Except.error e => Except.error e
        | Except.ok mt => Except.ok ⟨u, nm, ds, mt, d⟩

/-- `MCPClientService._parse_resources`. -/
def _parse_resources (resources_data : List RawRecord) : List ResourceInfo :=
  resources_data.filterMap (fun d => (parse_resource_record d).toOption)

/-- `MCPClientService._parse_server_info`: total, always yields a record. -/
def _parse_server_info (sd : ServerData) : ServerInfo :=
  ⟨sd.name, sd.version, sd.protocolVersion, sd.capabilities, sd⟩

/-- A transport instance as built by `ConnectionFactory.create_connection`
(`StdioConnection`, `SSEConnection`, `HTTPConnection` constructor calls with
the parameters the factory extracted). -/
inductive ConnInstance where
  | stdio (command : JVal) (args : JVal)
  | sse (url : JVal)
  | http (base_url : JVal)

namespace ConnectionFactory

/-- `ConnectionFactory.create_connection` from `connections/factory.py`: the
kind is lowercased; per kind the required parameter is fetched with
`kwargs.get` and checked for Python falsiness (`if not command:` etc.);
validation failures and unrecognized kinds raise the base `MCPClientError`.
The surrounding `try/except` of the source only logs and re-raises. -/
def create_connection (connection_type : String) (kwargs : ArgDict) :
    Except ExcData ConnInstance :=
  if pyLower connection_type = "stdio" then
    if pyFalsy (pyDictGet kwargs "command") then
      Except.error (mkMCPClientError "STDIO connection requires \x27command\x27 parameter")
    else
      Except.ok (ConnInstance.stdio (pyDictGet kwargs "command")
        (pyDictGetD kwargs "args" (JVal.arr [])))
  else if pyLower connection_type = "sse" then
    if pyFalsy (pyDictGet kwargs "url") then
      Except.error (mkMCPClientError "SSE connection requires \x27url\x27 parameter")
    else
      Except.ok (ConnInstance.sse (pyDictGet kwargs "url"))
  else if pyLower connection_type = "http" then
    if pyFalsy (pyDictGet kwargs "base_url") then
      Except.error (mkMCPClientError "HTTP connection requires \x27base_url\x27 parameter")
    else
      Except.ok (ConnInstance.http (pyDictGet kwargs "base_url"))
  else
    Except.error (mkMCPClientError ("Unsupported connection type: " ++ pyLower connection_type))

end ConnectionFactory

/-- An HTTP response as seen by `connections/http_connection.py`:
status code, body text, and the decoded JSON body. -/
structure HttpResponse where
  status_code : Nat
  text : String
  json : JVal

namespace HTTPConnection

/-- `HTTPConnection.call_tool`: the outcome of the `requests.post` call is the
explicit `post_response` argument (`Except.error msg` models a raised
`requests.RequestException` with message `msg`).  A 200 answer yields the
decoded body; any other status raises a `ToolExecutionError` whose message
carries the status code and the body text; a `RequestException` is wrapped
into a `ToolExecutionError` naming the tool.  The `ToolExecutionError`
raised in the `try` block is not a `RequestException`, so it propagates
unchanged through the `except` clause. -/
def call_tool (tool_name : String) (arguments : ArgDict)
    (post_response : Except String HttpResponse) : Except ExcData JVal :=
  match post_response with
  | Except.error emsg =>
      Except.error (mkToolExecutionError
        ("Failed to execute tool \x27" ++ tool_name ++ "\x27: " ++ emsg)
        (some tool_name) (some arguments) none)
  | Except.ok r =>
      if r.status_code = 200 then
        Except.ok r.json
      else
        Except.error (mkToolExecutionError
          ("Tool execution failed with status " ++ toString r.status_code ++ ": " ++ r.text)
          (some tool_name) (some arguments) none)

end HTTPConnection

/-- The I/O behaviour of transport instances, abstracting the awaited network
and subprocess effects: what `connection.connect()`, `connection.call_tool`
and `connection.disconnect()` return or raise for a given instance. -/
structure TransportBehavior where
  connectResult : ConnInstance → Except ExcData ServerData
  callTool : ConnInstance → String → ArgDict → Except ExcData JVal
  disconnectResult : ConnInstance → Except ExcData Unit

namespace MCPClientService

/-- The mutable attributes of an `MCPClientService` instance. -/
structure State where
  connection : Option ConnInstance
  connection_config : Option ConnectionConfig
  server_info : Option ServerInfo
  tools : List ToolInfo
  prompts : List PromptInfo
  resources : List ResourceInfo
  _connected : Bool

/-- `MCPClientService.__init__`. -/
def State.init : State :=
  ⟨none, none, none, [], [], [], false⟩

/-- `MCPClientService._cleanup_connection`: calls the active transport's
`disconnect()` first, swallowing and logging any exception it raises (which
is why no `TransportBehavior` outcome can influence the result), then resets
every session attribute to its initial value. -/
def _cleanup_connection : State → State := fun _ =>
  ⟨none, none, none, [], [], [], false⟩

/-- `MCPClientService.is_connected`. -/
def is_connected (s : State) : Bool :=
  s._connected && s.connection.isSome

/-- `MCPClientService.get_server_info`. -/
def get_server_info (s : State) : Option ServerInfo :=
  s.server_info

/-- `MCPClientService.get_tools` (`self.tools.copy()` — the copy of an
immutable list value is the list itself). -/
def get_tools (s : State) : List ToolInfo :=
  s.tools

/-- Python `tool.name == tool_name`: equality of an arbitrary value with a
string is `True` exactly for the equal string. -/
def pyEqStr (v : JVal) (t : String) : Bool :=
  match v with
  | JVal.str u => u == t
  | _ => false

/-- `MCPClientService.get_tool`: linear scan, first match by name. -/
def get_tool (s : State) (tool_name : String) : Option ToolInfo :=
  s.tools.find? (fun t => pyEqStr t.name tool_name)

/-- `MCPClientService.get_prompts`. -/
def get_prompts (s : State) : List PromptInfo :=
  s.prompts

/-- `MCPClientService.get_resources`. -/
def get_resources (s : State) : List ResourceInfo :=
  s.resources

/-- `MCPClientService.connect`: build a transport via the factory, call its
`connect()`, normalise the payload and store the session state.  Any
exception in the `try` block triggers `_cleanup_connection` and is then
re-raised unchanged if it `isinstance(e, MCPClientError)`, else wrapped into
`ConnectionError("Connection failed: " + str(e), ...)`.  The returned pair is
(state of `self` afterwards, returned value or raised exception). -/
def connect (b : TransportBehavior) (s : State) (config : ConnectionConfig) :
    State × Except ExcData ServerInfo :=
  match ConnectionFactory.create_connection config.connection_type config.parameters with
  | Except.error e =>
      (_cleanup_connection s,
       Except.error (if isMCPClientError e then e
         else mkConnectionError ("Connection failed: " ++ e.message)
           (some config.connection_type) (some config.parameters)))
  | Except.ok inst =>
    match b.connectResult inst with
    | Except.error e =>
        (_cleanup_connection { s with connection := some inst },
         Except.error (if isMCPClientError e then e
           else mkConnectionError ("Connection failed: " ++ e.message)
             (some config.connection_type) (some config.parameters)))
    | Except.ok sd =>
        ({ connection := some inst,
           connection_config := some config,
           server_info := some (_parse_server_info sd),
           tools := _parse_tools sd.tools,
           prompts := _parse_prompts sd.prompts,
           resources := _parse_resources sd.resources,
           _connected := true },
         Except.ok (_parse_server_info sd))

/-- `MCPClientService.disconnect`: logs and runs `_cleanup_connection`;
cleanup swallows transport errors, so `disconnect` never raises. -/
def disconnect (s : State) : State × Except ExcData Unit :=
  (_cleanup_connection s, Except.ok ())

/-- The `try`/`except` phase of `MCPClientService.execute_tool` around the
transport call: a returned raw result is wrapped into a successful
`ToolExecutionResult`; a raised `ToolExecutionError` is re-raised unchanged
(`isinstance(e, ToolExecutionError)`); any other exception is wrapped into
`ToolExecutionError("Tool execution failed: " + str(e), ...)` carrying
`{"execution_time": elapsed}`. -/
def execute_tool_callPhase (s : State) (elapsed : PyFloat) (tool_name : String)
    (arguments : ArgDict) (call : Except ExcData JVal) :
    State × Except ExcData ToolExecutionResult :=
  match call with
  | Except.ok result =>
      (s, Except.ok ⟨true, some result, none, some elapsed, some result⟩)
  | Except.error e =>
      if e.kind = ExcKind.toolExecutionError then
        (s, Except.error e)
      else
        (s, Except.error (mkToolExecutionError
          ("Tool execution failed: " ++ e.message)
          (some tool_name) (some arguments)
          (some [("execution_time", elapsed)])))

/-- `MCPClientService.execute_tool`.  `elapsed` is the value
`time.time() - start_time` that the source computes around the transport
call; it is only stored, never inspected.  Pre-checks (not connected,
unknown tool) raise before the `try` block; inside it, a missing
connection raises `ToolExecutionError` (caught below and re-raised
unchanged, hence stated directly), the transport result is wrapped into a
successful `ToolExecutionResult`, a raised `ToolExecutionError` is
re-raised unchanged, and any other exception is wrapped into
`ToolExecutionError("Tool execution failed: " + str(e), ...)` carrying
`{"execution_time": elapsed}`.  The state of `self` is never modified. -/
def execute_tool (b : TransportBehavior) (elapsed : PyFloat) (s : State)
    (tool_name : String) (arguments : ArgDict) :
    State × Except ExcData ToolExecutionResult :=
  if is_connected s then
    match get_tool s tool_name with
    | none =>
        (s, Except.error (mkToolExecutionError
          ("Tool \x27" ++ tool_name ++ "\x27 not found")
          (some tool_name) (some arguments) none))
    | some _ =>
        match s.connection with
        | none =>
            (s, Except.error (mkToolExecutionError "Not connected to MCP server"
              (some tool_name) (some arguments) none))
        | some inst =>
            execute_tool_callPhase s elapsed tool_name arguments
              (b.callTool inst tool_name arguments)
  else
    (s, Except.error (mkToolExecutionError "Not connected to MCP server"
      (some tool_name) (some arguments) none))

/-- The states an `MCPClientService` can be in: the initial state and
everything reachable through the state-changing operations (the query
methods are pure reads).  Each step may see a different transport
behaviour. -/
inductive Reachable : State → Prop where
  | init : Reachable State.init
  | connectStep (b : TransportBehavior) (cfg : ConnectionConfig) (s : State) :
      Reachable s → Reachable (connect b s cfg).1
  | disconnectStep (s : State) :
      Reachable s → Reachable (disconnect s).1
  | executeStep (b : TransportBehavior) (t : PyFloat) (n : String)
      (a : ArgDict) (s : State) :
      Reachable s → Reachable (execute_tool b t s n a).1

/-- The session invariant of the service: a set connected flag implies a
held transport instance and a held server identity. -/
def Inv (s : State) : Prop :=
  s._connected = true → s.connection.isSome = true ∧ s.server_info.isSome = true

end MCPClientService

/-- `t` occurs as a substring of `s`. -/
def strContains (s t : String) : Prop :=
  ∃ a b : String, s = a ++ t ++ b

/-- The class of the exception raised by a computation, when it raised. -/
def errKind? {α : Type} : Except ExcData α → Option ExcKind
  | Except.error e => some e.kind
  | Except.ok _ => none

/-- The message of the exception raised by a computation, when it raised. -/
def errMsg? {α : Type} : Except ExcData α → Option String
  | Except.error e => some e.message
  | Except.ok _ => none

/-- The `tool_name` context of the exception raised by a computation. -/
def errToolName? {α : Type} : Except ExcData α → Option String
  | Except.error e => e.tool_name
  | Except.ok _ => none

/-- A raw record whose first attribute access raises. -/
def raisingRec : RawRecord :=
  ⟨AttrResult.raises, AttrResult.absent, AttrResult.absent,
   AttrResult.absent, AttrResult.absent, AttrResult.absent, "bad"⟩

/-- A raw introspection payload with no advertised tools/prompts/resources. -/
def sdEmpty : ServerData :=
  ⟨none, none, none, none, [], [], []⟩

/-- The transport instance the factory builds for
`stdio` with `command="python"`. -/
def instStdio : ConnInstance :=
  ConnInstance.stdio (JVal.str "python") (JVal.arr [])

/-- A concrete connection-kind taxonomy error, used as a raised exception. -/
def connErrConc : ExcData :=
  mkConnectionError "network unreachable" none none

/-- A transport behaviour whose operations all succeed (empty server). -/
def bOk : TransportBehavior :=
  ⟨fun _ => Except.ok sdEmpty, fun _ _ _ => Except.ok JVal.null, fun _ => Except.ok ()⟩

/-- A transport behaviour whose operations raise `connErrConc`. -/
def bRefused : TransportBehavior :=
  ⟨fun _ => Except.error connErrConc, fun _ _ _ => Except.error connErrConc,
   fun _ => Except.ok ()⟩

/-- A stdio configuration with the required `command` parameter. -/
def cfgStdio : ConnectionConfig :=
  ConnectionConfig.make "stdio" [("command", JVal.str "python")]

/-- A tool descriptor named `"t1"`. -/
def tiT1 : ToolInfo :=
  ⟨JVal.str "t1", JVal.str "", none, RawRecord.ofString "t1"⟩

/-- A connected service state holding `instStdio` and the tool `"t1"`. -/
def sConn : MCPClientService.State :=
  ⟨some instStdio, some cfgStdio, some (_parse_server_info sdEmpty), [tiT1], [], [], true⟩

/-- The execution record produced by a successful `execute_tool` returning
`null` after 3 time units. -/
def resOk : ToolExecutionResult :=
  ⟨true, some JVal.null, none, some 3, some JVal.null⟩

/-- C5: a raw tool record carrying attributes `name="t1"`, `description="d1"`,
`inputSchema=S` normalizes to a `ToolInfo` with exactly name `"t1"`,
description `"d1"`, input schema `S` and `raw_data` the original record
(whatever its other attributes and string form are); a raw record that is the
bare string `"t1"` normalizes to name `"t1"`, empty description and absent
input schema. -/
theorem tool_record_normalization (S : JVal) (aa ua ma : AttrResult) (rp : String) :
    _parse_tools [⟨AttrResult.val (JVal.str "t1"), AttrResult.val (JVal.str "d1"),
        AttrResult.val S, aa, ua, ma, rp⟩]
      = [⟨JVal.str "t1", JVal.str "d1", some S,
          ⟨AttrResult.val (JVal.str "t1"), AttrResult.val (JVal.str "d1"),
           AttrResult.val S, aa, ua, ma, rp⟩⟩]
    ∧ _parse_tools [RawRecord.ofString "t1"]
      = [⟨JVal.str "t1", JVal.str "", none, RawRecord.ofString "t1"⟩] :=
  ⟨rfl, rfl⟩

/-- C6: a raw record whose attribute access raises is dropped from the
normalized list while the surrounding records are still normalized (so the
output is exactly one element shorter than it would be with a parseable
record in that position); the normalization itself is a total function, so
no exception escapes it. -/
theorem parse_tools_drops_raising_record (l1 l2 : List RawRecord) (r : RawRecord)
    (hr : parse_tool_record r = Except.error ()) :
    _parse_tools (l1 ++ r :: l2) = _parse_tools l1 ++ _parse_tools l2
    ∧ ∀ (g : RawRecord) (t : ToolInfo), parse_tool_record g = Except.ok t →
        (_parse_tools (l1 ++ g :: l2)).length = (_parse_tools (l1 ++ r :: l2)).length + 1 := by
  constructor
  · simp [_parse_tools, List.filterMap_append, List.filterMap_cons, hr, Except.toOption]
  · intro g t hg
    simp [_parse_tools, List.filterMap_append, List.filterMap_cons, hr, hg, Except.toOption]
    omega

/-- C6 witness: dropping the raising record from a singleton batch yields the
empty list, one shorter than with a parseable record in its place. -/
theorem parse_tools_drops_raising_record_applied :
    _parse_tools [raisingRec] = [] ∧
    (_parse_tools [RawRecord.ofString "a"]).length = (_parse_tools [raisingRec]).length + 1 := by
  have h := parse_tools_drops_raising_record [] [] raisingRec rfl
  exact ⟨h.1, h.2 (RawRecord.ofString "a")
    ⟨JVal.str "a", JVal.str "", none, RawRecord.ofString "a"⟩ rfl⟩

/-- C3 counterexample: `create_connection("stdio")` with no `command`
parameter raises the base `MCPClientError`, not the configuration-kind
error (`ConfigurationError` exists in the taxonomy but the factory never
raises it). -/
theorem factory_error_kind_cex :
    errKind? (ConnectionFactory.create_connection "stdio" []) = some ExcKind.mcpClientError
    ∧ ExcKind.mcpClientError ≠ ExcKind.configurationError :=
  ⟨rfl, by decide⟩

/-- C3 (amended): for each supported transport kind, `create_connection`
with the kind's required parameter missing raises a base-taxonomy
`MCPClientError` (not the configuration subclass) whose message names that
missing parameter; with an unrecognized kind it raises a base-taxonomy
`MCPClientError` whose message names the lowercased unsupported kind. -/
theorem factory_validation_errors :
    (∀ kwargs : ArgDict, kwargs.lookup "command" = none →
      ConnectionFactory.create_connection "stdio" kwargs
        = Except.error (mkMCPClientError "STDIO connection requires \x27command\x27 parameter")
      ∧ strContains "STDIO connection requires \x27command\x27 parameter" "command")
    ∧ (∀ kwargs : ArgDict, kwargs.lookup "url" = none →
      ConnectionFactory.create_connection "sse" kwargs
        = Except.error (mkMCPClientError "SSE connection requires \x27url\x27 parameter")
      ∧ strContains "SSE connection requires \x27url\x27 parameter" "url")
    ∧ (∀ kwargs : ArgDict, kwargs.lookup "base_url" = none →
      ConnectionFactory.create_connection "http" kwargs
        = Except.error (mkMCPClientError "HTTP connection requires \x27base_url\x27 parameter")
      ∧ strContains "HTTP connection requires \x27base_url\x27 parameter" "base_url")
    ∧ (∀ (t : String) (kwargs : ArgDict),
      pyLower t ≠ "stdio" → pyLower t ≠ "sse" → pyLower t ≠ "http" →
      ConnectionFactory.create_connection t kwargs
        = Except.error (mkMCPClientError ("Unsupported connection type: " ++ pyLower t))
      ∧ strContains ("Unsupported connection type: " ++ pyLower t) (pyLower t)) := by
  refine ⟨?_, ?_, ?_, ?_⟩
  · intro kwargs h
    refine ⟨?_, "STDIO connection requires \x27", "\x27 parameter", rfl⟩
    unfold ConnectionFactory.create_connection
    rw [if_pos (show pyLower "stdio" = "stdio" from rfl)]
    rw [show pyDictGet kwargs "command" = JVal.null by unfold pyDictGet; rw [h]]
    rfl
  · intro kwargs h
    refine ⟨?_, "SSE connection requires \x27", "\x27 parameter", rfl⟩
    unfold ConnectionFactory.create_connection
    rw [if_neg (show ¬ pyLower "sse" = "stdio" by decide),
      if_pos (show pyLower "sse" = "sse" from rfl)]
    rw [show pyDictGet kwargs "url" = JVal.null by unfold pyDictGet; rw [h]]
    rfl
  · intro kwargs h
    refine ⟨?_, "HTTP connection requires \x27", "\x27 parameter", rfl⟩
    unfold ConnectionFactory.create_connection
    rw [if_neg (show ¬ pyLower "http" = "stdio" by decide),
      if_neg (show ¬ pyLower "http" = "sse" by decide),
      if_pos (show pyLower "http" = "http" from rfl)]
    rw [show pyDictGet kwargs "base_url" = JVal.null by unfold pyDictGet; rw [h]]
    rfl
  · intro t kwargs h1 h2 h3
    refine ⟨?_, "Unsupported connection type: ", "", ?_⟩
    · unfold ConnectionFactory.create_connection
      rw [if_neg h1, if_neg h2, if_neg h3]
    · rw [String.append_empty]

/-- C3 witness: concrete missing-parameter and unrecognized-kind calls. -/
theorem factory_validation_errors_applied :
    ConnectionFactory.create_connection "stdio" []
      = Except.error (mkMCPClientError "STDIO connection requires \x27command\x27 parameter")
    ∧ ConnectionFactory.create_connection "sse" []
      = Except.error (mkMCPClientError "SSE connection requires \x27url\x27 parameter")
    ∧ ConnectionFactory.create_connection "http" []
      = Except.error (mkMCPClientError "HTTP connection requires \x27base_url\x27 parameter")
    ∧ ConnectionFactory.create_connection "websocket" []
      = Except.error (mkMCPClientError "Unsupported connection type: websocket") := by
  refine ⟨(factory_validation_errors.1 [] rfl).1, ((factory_validation_errors.2).1 [] rfl).1,
    ((factory_validation_errors.2).2.1 [] rfl).1, ?_⟩
  exact ((factory_validation_errors.2).2.2 "websocket" []
    (by decide) (by decide) (by decide)).1

/-- C7: for the HTTP transport, `call_tool` against an endpoint answering any
non-200 status raises a tool-execution-kind error (`mkToolExecutionError`)
whose message contains the status code and the response body text, and which
carries the tool name and the arguments. -/
theorem http_call_tool_non200_error (n : String) (a : ArgDict) (r : HttpResponse)
    (h : ¬ r.status_code = 200) :
    HTTPConnection.call_tool n a (Except.ok r)
      = Except.error (mkToolExecutionError
          ("Tool execution failed with status " ++ toString r.status_code ++ ": " ++ r.text)
          (some n) (some a) none)
    ∧ strContains ("Tool execution failed with status " ++ toString r.status_code ++ ": " ++ r.text)
        (toString r.status_code)
    ∧ strContains ("Tool execution failed with status " ++ toString r.status_code ++ ": " ++ r.text)
        r.text := by
  refine ⟨?_, ⟨"Tool execution failed with status ", ": " ++ r.text, ?_⟩,
    ⟨"Tool execution failed with status " ++ toString r.status_code ++ ": ", "", ?_⟩⟩
  · simp only [HTTPConnection.call_tool]
    rw [if_neg h]
  · simp only [String.append_assoc]
  · rw [String.append_empty]

/-- C7 witness: status 500 with body `"boom"` yields a tool-execution error
whose message contains `"500"` and `"boom"`. -/
theorem http_call_tool_non200_error_applied :
    HTTPConnection.call_tool "echo" [("x", JVal.num 1)] (Except.ok ⟨500, "boom", JVal.null⟩)
      = Except.error (mkToolExecutionError "Tool execution failed with status 500: boom"
          (some "echo") (some [("x", JVal.num 1)]) none)
    ∧ strContains "Tool execution failed with status 500: boom" "500"
    ∧ strContains "Tool execution failed with status 500: boom" "boom" :=
  http_call_tool_non200_error "echo" [("x", JVal.num 1)] ⟨500, "boom", JVal.null⟩ (by decide)

/-- C1: a successful `connect` leaves the service with `is_connected()` true
and a non-absent `get_server_info()`; a failed `connect` (whatever the
factory or transport raised) leaves `is_connected()` false and
`get_tools()`/`get_prompts()`/`get_resources()` empty — indeed the whole
state is rolled back to the initial Disconnected values, never a partial
session. -/
theorem connect_success_and_rollback (b : TransportBehavior)
    (s : MCPClientService.State) (config : ConnectionConfig) :
    (∀ s2 si, MCPClientService.connect b s config = (s2, Except.ok si) →
      MCPClientService.is_connected s2 = true
      ∧ (MCPClientService.get_server_info s2).isSome = true)
    ∧ (∀ s2 e, MCPClientService.connect b s config = (s2, Except.error e) →
      s2 = MCPClientService.State.init
      ∧ MCPClientService.is_connected s2 = false
      ∧ MCPClientService.get_tools s2 = []
      ∧ MCPClientService.get_prompts s2 = []
      ∧ MCPClientService.get_resources s2 = []) := by
  constructor
  · intro s2 si h
    simp only [MCPClientService.connect] at h
    split at h
    · simp at h
    · split at h
      · simp at h
      · simp only [Prod.mk.injEq] at h
        obtain ⟨h1, h2⟩ := h
        subst h1
        exact ⟨rfl, rfl⟩
  · intro s2 e h
    simp only [MCPClientService.connect] at h
    split at h
    · simp only [Prod.mk.injEq] at h
      obtain ⟨h1, h2⟩ := h
      subst h1
      exact ⟨rfl, rfl, rfl, rfl, rfl⟩
    · split at h
      · simp only [Prod.mk.injEq] at h
        obtain ⟨h1, h2⟩ := h
        subst h1
        exact ⟨rfl, rfl, rfl, rfl, rfl⟩
      · simp at h

/-- C1 witness: an all-succeeding transport connects the service; a refused
connection rolls it back to the initial state. -/
theorem connect_success_and_rollback_applied :
    MCPClientService.is_connected
      (MCPClientService.connect bOk MCPClientService.State.init cfgStdio).1 = true
    ∧ (MCPClientService.get_server_info
      (MCPClientService.connect bOk MCPClientService.State.init cfgStdio).1).isSome = true
    ∧ MCPClientService.is_connected
      (MCPClientService.connect bRefused MCPClientService.State.init cfgStdio).1 = false
    ∧ MCPClientService.get_tools
      (MCPClientService.connect bRefused MCPClientService.State.init cfgStdio).1 = [] := by
  have hok := (connect_success_and_rollback bOk MCPClientService.State.init cfgStdio).1
    (MCPClientService.connect bOk MCPClientService.State.init cfgStdio).1
    (_parse_server_info sdEmpty) rfl
  have hfail := (connect_success_and_rollback bRefused MCPClientService.State.init cfgStdio).2
    (MCPClientService.connect bRefused MCPClientService.State.init cfgStdio).1
    connErrConc rfl
  exact ⟨hok.1, hok.2, hfail.2.1, hfail.2.2.1⟩

/-- C8: `disconnect()` never raises; it resets the state to the initial
Disconnected values, so calling it on an already-disconnected service leaves
the state unchanged (server identity absent, all collections empty), and a
second `disconnect()` yields exactly the state of a single one. -/
theorem disconnect_idempotent (s : MCPClientService.State) :
    (MCPClientService.disconnect s).2 = Except.ok ()
    ∧ (MCPClientService.disconnect s).1 = MCPClientService.State.init
    ∧ MCPClientService.disconnect MCPClientService.State.init
        = (MCPClientService.State.init, Except.ok ())
    ∧ MCPClientService.disconnect (MCPClientService.disconnect s).1
        = MCPClientService.disconnect s
    ∧ MCPClientService.is_connected MCPClientService.State.init = false
    ∧ MCPClientService.get_server_info MCPClientService.State.init = none
    ∧ MCPClientService.get_tools MCPClientService.State.init = []
    ∧ MCPClientService.get_prompts MCPClientService.State.init = []
    ∧ MCPClientService.get_resources MCPClientService.State.init = [] :=
  ⟨rfl, rfl, rfl, rfl, rfl, rfl, rfl, rfl, rfl⟩

/-- The call phase of `execute_tool` never modifies the service state. -/
theorem execute_tool_callPhase_fst (s : MCPClientService.State) (t : PyFloat)
    (n : String) (a : ArgDict) (c : Except ExcData JVal) :
    (MCPClientService.execute_tool_callPhase s t n a c).1 = s := by
  cases c with
  | ok r => rfl
  | error e =>
      simp only [MCPClientService.execute_tool_callPhase]
      split
      · rfl
      · rfl

/-- C9: in every reachable service state, a set connected flag implies a held
transport instance and a held server identity; and the initial state (to
which every cleanup resets) has the flag unset with transport, config and
server identity absent and all descriptor lists empty.  `execute_tool` and
the query methods never modify the state, so the invariant is preserved by
every operation. -/
theorem service_session_invariant :
    (∀ s, MCPClientService.Reachable s → MCPClientService.Inv s)
    ∧ (MCPClientService.State.init._connected = false
      ∧ MCPClientService.State.init.connection = none
      ∧ MCPClientService.State.init.connection_config = none
      ∧ MCPClientService.State.init.server_info = none
      ∧ MCPClientService.State.init.tools = []
      ∧ MCPClientService.State.init.prompts = []
      ∧ MCPClientService.State.init.resources = [])
    ∧ (∀ s, MCPClientService._cleanup_connection s = MCPClientService.State.init) := by
  refine ⟨?_, ⟨rfl, rfl, rfl, rfl, rfl, rfl, rfl⟩, fun _ => rfl⟩
  intro s h
  induction h with
  | init => exact fun hc => Bool.noConfusion hc
  | connectStep b cfg s hs ih =>
      simp only [MCPClientService.connect]
      split
      · exact fun hc => Bool.noConfusion hc
      · split
        · exact fun hc => Bool.noConfusion hc
        · exact fun _ => ⟨rfl, rfl⟩
  | disconnectStep s hs ih => exact fun hc => Bool.noConfusion hc
  | executeStep b t n a s hs ih =>
      have hst : (MCPClientService.execute_tool b t s n a).1 = s := by
        simp only [MCPClientService.execute_tool]
        repeat' split
        all_goals first
          | rfl
          | apply execute_tool_callPhase_fst
      rw [hst]
      exact ih

/-- C9 witness: the invariant holds of the initial (reachable) state. -/
theorem service_session_invariant_applied :
    MCPClientService.Inv MCPClientService.State.init :=
  service_session_invariant.1 MCPClientService.State.init MCPClientService.Reachable.init

/-- C10: whenever `execute_tool` returns an `ExecutionResult` (instead of
raising), that record has `success = true`, no error string, and
`raw_result` equal to `result`; every failure mode raises instead. -/
theorem execute_tool_result_success_shape (b : TransportBehavior) (t : PyFloat)
    (s : MCPClientService.State) (n : String) (a : ArgDict)
    (s2 : MCPClientService.State) (r : ToolExecutionResult)
    (h : MCPClientService.execute_tool b t s n a = (s2, Except.ok r)) :
    r.success = true ∧ r.error = none ∧ r.raw_result = r.result := by
  simp only [MCPClientService.execute_tool] at h
  split at h
  · split at h
    · simp at h
    · split at h
      · simp at h
      · simp only [MCPClientService.execute_tool_callPhase] at h
        split at h
        · simp only [Prod.mk.injEq, Except.ok.injEq] at h
          obtain ⟨h1, h2⟩ := h
          subst h2
          exact ⟨rfl, rfl, rfl⟩
        · split at h
          · simp at h
          · simp at h
  · simp at h

/-- C10 witness: a successful concrete execution yields exactly the
success-shaped record. -/
theorem execute_tool_result_success_shape_applied :
    resOk.success = true ∧ resOk.error = none ∧ resOk.raw_result = resOk.result :=
  execute_tool_result_success_shape bOk 3 sConn "t1" [] sConn resOk rfl

/-- C4: `execute_tool` on a name that matches no known tool raises a
tool-execution-kind error whose structured context carries the requested
name, whether the service is connected or not. -/
theorem execute_tool_unknown_tool_error (b : TransportBehavior) (t : PyFloat)
    (s : MCPClientService.State) (n : String) (a : ArgDict)
    (h : MCPClientService.get_tool s n = none) :
    errKind? (MCPClientService.execute_tool b t s n a).2 = some ExcKind.toolExecutionError
    ∧ errToolName? (MCPClientService.execute_tool b t s n a).2 = some n := by
  simp only [MCPClientService.execute_tool]
  by_cases hc : MCPClientService.is_connected s
  · rw [if_pos hc, h]
    exact ⟨rfl, rfl⟩
  · rw [if_neg hc]
    exact ⟨rfl, rfl⟩

/-- C4 witness: the unknown name `"ghost"` is reported in the error context
both from the initial (disconnected) state and from a connected state. -/
theorem execute_tool_unknown_tool_error_applied :
    (errKind? (MCPClientService.execute_tool bOk 0 MCPClientService.State.init "ghost" []).2
        = some ExcKind.toolExecutionError
      ∧ errToolName? (MCPClientService.execute_tool bOk 0 MCPClientService.State.init "ghost" []).2
        = some "ghost")
    ∧ (errKind? (MCPClientService.execute_tool bOk 0 sConn "ghost" []).2
        = some ExcKind.toolExecutionError
      ∧ errToolName? (MCPClientService.execute_tool bOk 0 sConn "ghost" []).2
        = some "ghost") :=
  ⟨execute_tool_unknown_tool_error bOk 0 MCPClientService.State.init "ghost" [] rfl,
   execute_tool_unknown_tool_error bOk 0 sConn "ghost" [] rfl⟩

/-- C2 counterexample: a connection-kind taxonomy error raised by the
transport's `call_tool` is NOT re-raised unchanged by `execute_tool`
(`isinstance(e, ToolExecutionError)` is false for it): the service wraps it
into a tool-execution-kind error instead. -/
theorem execute_tool_reraise_cex :
    bRefused.callTool instStdio "t1" [] = Except.error connErrConc
    ∧ isMCPClientError connErrConc = true
    ∧ connErrConc.kind = ExcKind.connectionError
    ∧ (MCPClientService.execute_tool bRefused 5 sConn "t1" []).2 ≠ Except.error connErrConc
    ∧ errKind? (MCPClientService.execute_tool bRefused 5 sConn "t1" []).2
        = some ExcKind.toolExecutionError := by
  refine ⟨rfl, rfl, rfl, ?_, rfl⟩
  intro hEq
  exact absurd (congrArg errKind? hEq) (by decide)

/-- C2 (amended): of the exceptions raised by the transport's `call_tool`,
exactly the tool-execution-kind ones are re-raised unchanged (the same
exception value); every other exception — a non-taxonomy one, but also a
taxonomy error of another kind such as a connection-kind error — is wrapped
into a tool-execution-kind error carrying the elapsed time up to the
failure point. -/
theorem execute_tool_wrap_policy (b : TransportBehavior) (t : PyFloat)
    (s : MCPClientService.State) (n : String) (a : ArgDict)
    (inst : ConnInstance) (e : ExcData)
    (hic : MCPClientService.is_connected s = true)
    (hconn : s.connection = some inst)
    (ht : (MCPClientService.get_tool s n).isSome = true)
    (hcall : b.callTool inst n a = Except.error e) :
    (e.kind = ExcKind.toolExecutionError →
      (MCPClientService.execute_tool b t s n a).2 = Except.error e)
    ∧ (¬ e.kind = ExcKind.toolExecutionError →
      (MCPClientService.execute_tool b t s n a).2
        = Except.error (mkToolExecutionError ("Tool execution failed: " ++ e.message)
            (some n) (some a) (some [("execution_time", t)]))) := by
  obtain ⟨ti, hti⟩ := Option.isSome_iff_exists.mp ht
  have hred : MCPClientService.execute_tool b t s n a
      = MCPClientService.execute_tool_callPhase s t n a (b.callTool inst n a) := by
    simp only [MCPClientService.execute_tool]
    rw [if_pos hic, hti, hconn]
  constructor
  · intro hk
    rw [hred, hcall]
    simp only [MCPClientService.execute_tool_callPhase]
    rw [if_pos hk]
  · intro hk
    rw [hred, hcall]
    simp only [MCPClientService.execute_tool_callPhase]
    rw [if_neg hk]

/-- C2 witness: the connection-kind error of the counterexample is wrapped
into the expected tool-execution-kind error with the elapsed time. -/
theorem execute_tool_wrap_policy_applied :
    (MCPClientService.execute_tool bRefused 5 sConn "t1" []).2
      = Except.error (mkToolExecutionError "Tool execution failed: network unreachable"
          (some "t1") (some []) (some [("execution_time", 5)])) := by
  have h := execute_tool_wrap_policy bRefused 5 sConn "t1" [] instStdio connErrConc
    rfl rfl rfl rfl
  exact h.2 (by decide)
